import Mathlib

/-!
Verification of `examples/video-stream/video_play.py`.

The Python source is shallowly embedded below.  Pure conversions become Lean
functions on lists of byte values (`Nat`, reduced mod 256 where the numpy
dtype is `uint8`); decoded sample values are modelled as rationals, with the
C-style float-to-integer cast written out explicitly (truncation toward zero,
then wraparound modulo 2^16 for `np.int16`); the endless generator loops
become explicit step functions on a small state; the cooperative interleaving
of a generator with `aclose` becomes a scheduled transition system; the
`finally` block of `entrypoint` becomes a sequential interpreter with
exception propagation and Python name-lookup semantics.
-/

namespace VideoPlay

/-- MediaInfo dataclass (video_play.py lines 20-26): the media properties the
streamer caches once at open time. `video_fps` (a Python float) is modelled
as a rational. -/
structure MediaInfo where
  video_width : Nat
  video_height : Nat
  video_fps : Rat
  audio_sample_rate : Nat
  audio_channels : Nat
deriving DecidableEq

/-- Declared properties of one video stream of an opened container
(`video_stream.width/height/average_rate`, lines 43-45). -/
structure VideoStreamInfo where
  width : Nat
  height : Nat
  average_rate : Rat
deriving DecidableEq

/-- Declared properties of one audio stream of an opened container
(`audio_stream.sample_rate/channels`, lines 46-47). -/
structure AudioStreamInfo where
  sample_rate : Nat
  channels : Nat
deriving DecidableEq

/-- An opened `av` container, reduced to what `__init__` reads from it: the
lists `container.streams.video` and `container.streams.audio`.  The code
opens the same file twice, so both containers carry the same stream lists and
a single value serves for both. -/
structure AVContainer where
  videoStreams : List VideoStreamInfo
  audioStreams : List AudioStreamInfo
deriving DecidableEq

/-- The state `MediaFileStreamer.__init__` leaves behind: the cached
`MediaInfo` and the `_stopped` flag (lines 37, 42-48). -/
structure MediaFileStreamer where
  info : MediaInfo
  stopped : Bool
deriving DecidableEq

/-- Python exceptions that the embedded fragments can raise. -/
inductive PyErr where
  | indexError
  | avError
  | nameError
deriving DecidableEq

/-- MediaFileStreamer.__init__ (lines 32-48).  `streams.video[0]` on a
container with no video stream raises `IndexError`, likewise for audio; in
that case construction fails and no streamer object is returned.  The video
stream is indexed first, as in the source. -/
def mkMediaFileStreamer (c : AVContainer) : Except PyErr MediaFileStreamer :=
  match c.videoStreams[0]? with
  | none => .error .indexError
  | some vs =>
    match c.audioStreams[0]? with
    | none => .error .indexError
    | some austr =>
      .ok { info := { video_width := vs.width
                      video_height := vs.height
                      video_fps := vs.average_rate
                      audio_sample_rate := austr.sample_rate
                      audio_channels := austr.channels }
            stopped := false }

/-- A decoded video frame after `av_frame.to_rgb().to_ndarray()` (line 62):
an array of shape `(height, width, 3)` of `uint8` RGB values, modelled as a
function from row and column index to the pixel's `(r, g, b)` triple. -/
structure AVVideoFrame where
  height : Nat
  width : Nat
  rgb : Nat → Nat → Nat × Nat × Nat

/-- the `rtc.VideoBufferType` tag used by the code (line 70). -/
inductive VideoBufferType where
  | RGBA
deriving DecidableEq

/-- rtc.VideoFrame as constructed by `stream_video` (lines 67-72). -/
structure VideoFrame where
  width : Nat
  height : Nat
  type : VideoBufferType
  data : List Nat

/-- The four bytes one pixel contributes to `frame_rgba.tobytes()`
(lines 63-66, 71): `frame_rgba` is created by `np.ones((h, w, 4), np.uint8)`,
so every entry starts at 1; the slice assignment `frame_rgba[:, :, :3] = frame`
overwrites the first three channels with the RGB values (stored as `uint8`,
hence the mod 256), and the fourth channel keeps the `np.ones` value 1. -/
def rgbaPixelBytes (p : Nat × Nat × Nat) : List Nat :=
  [p.1 % 256, p.2.1 % 256, p.2.2 % 256, 1]

/-- row-major pixel order of the decoded `(height, width, 3)` array. -/
def videoFramePixels (f : AVVideoFrame) : List (Nat × Nat × Nat) :=
  (List.range f.height).flatMap (fun i => (List.range f.width).map (f.rgb i))

/-- the rtc.VideoFrame that `stream_video` yields for one decoded frame
(lines 61-72): `width=frame.shape[1]`, `height=frame.shape[0]`, RGBA type,
and `data=frame_rgba.tobytes()`. -/
def stream_video_frame (f : AVVideoFrame) : VideoFrame :=
  { width := f.width
    height := f.height
    type := .RGBA
    data := (videoFramePixels f).flatMap rgbaPixelBytes }

/-- truncation toward zero of a rational: the rounding C (and hence numpy's
`astype`) applies when converting a floating-point value to an integer type.
`Int.tdiv` is T-division (it rounds the quotient toward zero, unlike the
Euclidean `/`), so `Int.tdiv num den` truncates toward zero: -1/2 gives 0. -/
def ratTrunc (x : Rat) : Int := x.num.tdiv (x.den : Int)

/-- reduction of an arbitrary integer into the signed 16-bit range by
wraparound modulo 2^16: what `np.astype(np.int16)` does to an out-of-range
value (no saturation). -/
def int16Wrap (t : Int) : Int := (t + 32768) % 65536 - 32768

/-- the int16 value `(frame * 32768).astype(np.int16)` stores for one source
sample `x` (line 83): scale by 32768, truncate toward zero, wrap into the
signed 16-bit range. -/
def convertSample (x : Rat) : Int := int16Wrap (ratTrunc (x * 32768))

/-- Spec-side conversion for claim C2, written from the spec's words
("saturated/truncated to 16-bit range, no overflow wraparound"): scale by
32768, truncate, clamp into the signed 16-bit range.  Kept separate from
`convertSample` (which follows the source) so the two can be compared. -/
def specSaturateSample (x : Rat) : Int :=
  max (-32768) (min 32767 (ratTrunc (x * 32768)))

/-- the two little-endian bytes an int16 value occupies in
`ndarray.tobytes()`. -/
def int16le (v : Int) : List Nat :=
  [(v % 65536).toNat % 256, (v % 65536).toNat / 256]

/-- A decoded audio frame as seen by `stream_audio` (lines 78-82):
`av_frame.to_ndarray()` has shape `(channels, samples)`, modelled as a
function from channel and sample index to the sample value (a rational
standing for the decoded float).  `rate` is the decoded frame's own
`sample_rate` attribute, which the code never reads. -/
structure AVAudioFrame where
  channels : Nat
  samples : Nat
  rate : Nat
  sample : Nat → Nat → Rat

/-- rtc.AudioFrame as constructed by `stream_audio` (lines 84-89). -/
structure AudioFrame where
  data : List Nat
  sample_rate : Nat
  num_channels : Nat
  samples_per_channel : Nat

/-- the int16 values of the transposed `(samples, channels)` array in
row-major order (lines 82-83): sample-major, channel-minor. -/
def audioSamplesList (f : AVAudioFrame) : List Int :=
  (List.range f.samples).flatMap
    (fun i => (List.range f.channels).map (fun c => convertSample (f.sample c i)))

/-- bytes of `frame.tobytes()` (line 84): each int16 contributes two
little-endian bytes. -/
def audioFrameData (f : AVAudioFrame) : List Nat :=
  (audioSamplesList f).flatMap int16le

/-- the rtc.AudioFrame that `stream_audio` yields for one decoded frame
(lines 81-89): `data=frame.tobytes()`, `sample_rate=self.info.audio_sample_rate`
(the value cached at open time), `num_channels=frame.shape[1]` and
`samples_per_channel=frame.shape[0]` (the transposed array's shape). -/
def stream_audio_frame (info : MediaInfo) (f : AVAudioFrame) : AudioFrame :=
  { data := audioFrameData f
    sample_rate := info.audio_sample_rate
    num_channels := f.channels
    samples_per_channel := f.samples }

/-- State of one of the two endless loops (`stream_video` lines 56-72,
`stream_audio` lines 76-89, which have identical control structure): the
shared `_stopped` flag and the container's current decode position since the
last `seek(0)`. -/
structure LoopSt where
  stopped : Bool
  pos : Nat
deriving DecidableEq

/-- One unit of either stream loop, producing the next converted frame.  If
the flag is set the loop exits and nothing more is produced.  Otherwise, when
the container still has a unit at the current position it is decoded,
converted with `conv` and yielded; when the container is exhausted the loop
returns to the `while` head, seeks back to time zero and decodes the first
unit again (lines 56-58 / 76-78).  An empty source, which would loop forever
producing nothing, yields `none`. -/
def streamStep {α β : Type} (conv : α → β) (src : List α) (s : LoopSt) :
    Option (β × LoopSt) :=
  if s.stopped then none
  else
    match src[s.pos]? with
    | some u => some (conv u, ⟨s.stopped, s.pos + 1⟩)
    | none =>
      match src[0]? with
      | some u => some (conv u, ⟨s.stopped, 1⟩)
      | none => none

/-- the n-th frame either stream loop produces from state `s` (counting from
0), obtained by iterating `streamStep`. -/
def streamNth {α β : Type} (conv : α → β) (src : List α) (s : LoopSt) :
    Nat → Option β
  | 0 => (streamStep conv src s).map Prod.fst
  | n + 1 =>
    match streamStep conv src s with
    | none => none
    | some (_, s') => streamNth conv src s' n

/-- Program counter of the generator body of `stream_video` /
`stream_audio`, at the granularity of its context-touching operations:
`whileCheck` is the `while not self._stopped` test (line 56); `pull p` is the
implicit `next()` on the `container.decode(...)` iterator that begins each
`for` iteration (line 58), with `p` units decoded so far in this pass;
`frameCheck p` is the `if self._stopped: break` test (line 59); `suspended p`
is the suspension at `yield` (line 67); `done` is normal generator exit;
`raised` is termination by an exception from touching a closed container. -/
inductive GenPC where
  | whileCheck
  | pull (p : Nat)
  | frameCheck (p : Nat)
  | suspended (p : Nat)
  | done
  | raised
deriving DecidableEq

/-- Combined state of one stream generator and the streamer's shared fields:
`stopped` is `self._stopped`, `closed` records whether `aclose` has closed
the containers (lines 93-95). -/
structure SysSt where
  stopped : Bool
  closed : Bool
  pc : GenPC
deriving DecidableEq

/-- Observable actions: `ctxAccess` is any operation on the decode context
(`seek`, or pulling the decode iterator); `yieldFrame p` is yielding the
converted frame of unit `p`; `closeCtx` is `container.close()`. -/
inductive Act where
  | ctxAccess
  | yieldFrame (p : Nat)
  | closeCtx
deriving DecidableEq

/-- One micro-step of the generator of a stream over a source with `len`
decodable units.  The `while` head checks the flag before touching the
context; entering the loop body performs `seek(0)` (a context access, line 57)
and starts the `for`; each `for` iteration first pulls the decode iterator
(a context access, line 58) — on a closed container this raises — and only
then runs the `if self._stopped: break` test (line 59); a surviving unit is
converted and yielded (lines 61-72), suspending the generator; resuming from
the `yield` returns to the `for` head. -/
def genMicro (len : Nat) (s : SysSt) : SysSt × List Act :=
  match s.pc with
  | .whileCheck =>
    if s.stopped then (⟨s.stopped, s.closed, .done⟩, [])
    else if s.closed then (⟨s.stopped, s.closed, .raised⟩, [.ctxAccess])
    else (⟨s.stopped, s.closed, .pull 0⟩, [.ctxAccess])
  | .pull p =>
    if s.closed then (⟨s.stopped, s.closed, .raised⟩, [.ctxAccess])
    else if p < len then (⟨s.stopped, s.closed, .frameCheck p⟩, [.ctxAccess])
    else (⟨s.stopped, s.closed, .whileCheck⟩, [.ctxAccess])
  | .frameCheck p =>
    if s.stopped then (⟨s.stopped, s.closed, .whileCheck⟩, [])
    else (⟨s.stopped, s.closed, .suspended p⟩, [.yieldFrame p])
  | .suspended p => (⟨s.stopped, s.closed, .pull (p + 1)⟩, [])
  | .done => (s, [])
  | .raised => (s, [])

/-- the effect of `aclose` (lines 91-95): `self._stopped = True` and then the
container closes, with no `await` in between, so the whole of it is one
atomic step of the cooperative scheduler. -/
def closeStep (s : SysSt) : SysSt × List Act :=
  (⟨true, true, s.pc⟩, [.closeCtx])

/-- scheduler choice: run the generator for one micro-step, or run `aclose`. -/
inductive Ch where
  | gen
  | close
deriving DecidableEq

/-- one scheduled step of the combined system. -/
def sysStep (len : Nat) : Ch → SysSt → SysSt × List Act
  | .gen, s => genMicro len s
  | .close, s => closeStep s

/-- run a schedule, collecting the trace of actions. -/
def runSched (len : Nat) : List Ch → SysSt → SysSt × List Act
  | [], s => (s, [])
  | c :: cs, s =>
    let sa := sysStep len c s
    let rest := runSched len cs sa.1
    (rest.1, sa.2 ++ rest.2)

/-- all states a schedule passes through, the initial one included. -/
def visited (len : Nat) : List Ch → SysSt → List SysSt
  | [], s => [s]
  | c :: cs, s => s :: visited len cs (sysStep len c s).1

/-- initial state: flag clear, containers open, generator at the loop head. -/
def sysInit : SysSt := ⟨false, false, .whileCheck⟩

/-- run the generator alone for `n` micro-steps. -/
def runGenN (len : Nat) : Nat → SysSt → SysSt × List Act
  | 0, s => (s, [])
  | n + 1, s =>
    let sa := genMicro len s
    let rest := runGenN len n sa.1
    (rest.1, sa.2 ++ rest.2)

/-- a trace yields no frame. -/
def noYield (l : List Act) : Bool :=
  l.all fun a =>
    match a with
    | .yieldFrame _ => false
    | _ => true

/-- a trace contains a decode-context access. -/
def hasAccess (l : List Act) : Bool :=
  l.any fun a =>
    match a with
    | .ctxAccess => true
    | _ => false

/-- whether some decode-context access occurs after a close in the trace. -/
def accessAfterClose : List Act → Bool
  | [] => false
  | .closeCtx :: rest => hasAccess rest || accessAfterClose rest
  | _ :: rest => accessAfterClose rest

/-- The result of one pass of the `for` body over the units the decode
iterator produces, where each unit either decodes to a value or raises
(`Except.error`): the converted frames yielded before the first decode error,
and the propagated error if one occurred.  There is no `try` around the loop
body (lines 56-72 / 76-89), so an error from decoding ends the pass at once;
no later unit is examined. -/
def drainStream {α β E : Type} (conv : α → β) :
    List (Except E α) → List β × Option E
  | [] => ([], none)
  | .ok u :: rest =>
    let r := drainStream conv rest
    (conv u :: r.1, r.2)
  | .error e :: _ => ([], some e)

/-- observable events of the push loops `_push_video_frames` /
`_push_audio_frames` (lines 131-147). -/
inductive PushEv (β : Type) where
  | push (f : β)
  | sleepZero
deriving DecidableEq

/-- the event sequence of a push loop run over the frames its stream yields:
for every frame, one `av_sync.push(frame)` followed by one
`asyncio.sleep(0)` (lines 136-138 / 145-147). -/
def pushLoopEvents {β : Type} : List β → List (PushEv β)
  | [] => []
  | f :: rest => .push f :: .sleepZero :: pushLoopEvents rest

/-- the frames a push loop hands to `av_sync.push`, in order. -/
def pushedFrames {β : Type} (evs : List (PushEv β)) : List β :=
  evs.filterMap fun e =>
    match e with
    | .push f => some f
    | .sleepZero => none

/-- facts about the environment the `finally` block of `entrypoint` runs in:
whether the local name `av_sync` was ever bound (it is assigned inside the
`try`, line 150, so it is unbound if `AVSynchronizer(...)` raised), and
whether each close call raises. -/
structure ShutdownEnv where
  avSyncBound : Bool
  streamerCloseFails : Bool
  syncCloseFails : Bool
deriving DecidableEq

/-- the cleanup calls a shutdown performs. -/
inductive ShutAct where
  | streamerClose
  | syncClose
deriving DecidableEq

/-- the two awaited statements of the `finally` block (lines 168-170). -/
inductive ShutStmt where
  | callStreamerClose
  | callAvSyncClose
deriving DecidableEq

/-- Semantics of one statement of the `finally` block.  `await
streamer.aclose()` performs the streamer close and raises iff closing a
container raises.  `await av_sync.aclose()` first resolves the name
`av_sync`: if it was never bound this raises `NameError` before any close
happens; otherwise the synchronizer close is performed and raises iff the
close itself fails. -/
def execStmt (env : ShutdownEnv) : ShutStmt → List ShutAct × Option PyErr
  | .callStreamerClose =>
    ([.streamerClose], if env.streamerCloseFails then some .avError else none)
  | .callAvSyncClose =>
    if env.avSyncBound then
      ([.syncClose], if env.syncCloseFails then some .avError else none)
    else
      ([], some .nameError)

/-- sequential execution of statements with exception propagation: a raised
exception aborts all remaining statements, exactly as an exception raised in
a `finally` block leaves the rest of the block unexecuted. -/
def execSeq (env : ShutdownEnv) : List ShutStmt → List ShutAct × Option PyErr
  | [] => ([], none)
  | stmt :: rest =>
    let r := execStmt env stmt
    match r.2 with
    | some e => (r.1, some e)
    | none =>
      let r2 := execSeq env rest
      (r.1 ++ r2.1, r2.2)

/-- the body of `entrypoint`'s `finally` block (lines 168-170):
`await streamer.aclose()` then `await av_sync.aclose()`. -/
def finallyBody : List ShutStmt := [.callStreamerClose, .callAvSyncClose]

/-- running the whole `finally` block in a given environment. -/
def runFinally (env : ShutdownEnv) : List ShutAct × Option PyErr :=
  execSeq env finallyBody

/-- concrete MediaInfo used for evaluating the embedding. -/
def testInfo : MediaInfo :=
  { video_width := 64
    video_height := 48
    video_fps := 10
    audio_sample_rate := 8000
    audio_channels := 1 }

/-- a concrete 1×1 decoded video frame with RGB pixel (10, 20, 30). -/
def testVideoFrame : AVVideoFrame :=
  { height := 1, width := 1, rgb := fun _ _ => (10, 20, 30) }

/-- a concrete mono audio frame holding the single full-scale sample 1.0. -/
def fullScaleAudioFrame : AVAudioFrame :=
  { channels := 1, samples := 1, rate := 8000, sample := fun _ _ => 1 }

/-- a concrete mono audio frame with two in-range samples, whose own `rate`
attribute differs from the cached one. -/
def testAudioFrame : AVAudioFrame :=
  { channels := 1
    samples := 2
    rate := 44100
    sample := fun _ i => if i = 0 then 1 / 4 else -(1 / 2) }

/-- a container declaring one video and one audio stream. -/
def testContainer : AVContainer :=
  { videoStreams := [{ width := 64, height := 48, average_rate := 10 }]
    audioStreams := [{ sample_rate := 8000, channels := 1 }] }

/-- the declared audio stream of `testContainer`. -/
def testAudioStreamInfo : AudioStreamInfo := { sample_rate := 8000, channels := 1 }

/-- the streamer that construction from `testContainer` returns. -/
def testStreamer : MediaFileStreamer := { info := testInfo, stopped := false }

/-- a container with no video stream. -/
def noVideoContainer : AVContainer :=
  { videoStreams := []
    audioStreams := [{ sample_rate := 8000, channels := 1 }] }

/-- Schedule exhibiting a context access after close on a 2-unit source: the
generator runs up to its first `yield`, `aclose` runs while it is suspended
there, and the consumer then pulls once more. -/
def cexSched : List Ch := [.gen, .gen, .gen, .close, .gen, .gen]

/-- the state just after `aclose` in the `cexSched` run: flag set, containers
closed, generator still suspended at its first `yield`. -/
def cexPostState : SysSt := ⟨true, true, .suspended 0⟩

/-- length of a `flatMap` whose per-element blocks all have length `m`. -/
theorem length_flatMap_const {α β : Type} (g : α → List β) (m : Nat)
    (hg : ∀ x, (g x).length = m) :
    ∀ l : List α, (l.flatMap g).length = l.length * m := by
  intro l
  induction l with
  | nil => simp
  | cons y t ih =>
    simp [List.flatMap_cons, hg, ih, Nat.succ_mul, Nat.add_comm]

/-- indexing into a `flatMap` whose per-element blocks all have length `m`:
position `i * m + c` lands at offset `c` of block `i`. -/
theorem getElem?_flatMap_const {α β : Type} (g : α → List β) (m : Nat)
    (hg : ∀ x, (g x).length = m) :
    ∀ (l : List α) (i c : Nat), c < m → ∀ x, l[i]? = some x →
      (l.flatMap g)[i * m + c]? = (g x)[c]? := by
  intro l
  induction l with
  | nil => intro i c _ x hx; simp at hx
  | cons y t ih =>
    intro i c hc x hx
    cases i with
    | zero =>
      rw [List.getElem?_cons_zero] at hx
      injection hx with hyx
      subst hyx
      rw [List.flatMap_cons, Nat.zero_mul, Nat.zero_add, List.getElem?_append,
        if_pos (by rw [hg y]; exact hc)]
    | succ j =>
      rw [List.getElem?_cons_succ] at hx
      have hidx : (j + 1) * m + c = (g y).length + (j * m + c) := by
        rw [hg y, Nat.succ_mul]; ring
      rw [List.flatMap_cons, hidx,
        List.getElem?_append_right (Nat.le_add_right _ _),
        Nat.add_sub_cancel_left]
      exact ih j c hc x hx

/-- the transposed sample list has one entry per sample and channel. -/
theorem audioSamplesList_length (f : AVAudioFrame) :
    (audioSamplesList f).length = f.samples * f.channels := by
  have h := length_flatMap_const
    (fun i => (List.range f.channels).map (fun c => convertSample (f.sample c i)))
    f.channels (fun i => by simp) (List.range f.samples)
  simpa [audioSamplesList] using h

/-- the audio byte buffer has two bytes per sample and channel. -/
theorem audioFrameData_length (f : AVAudioFrame) :
    (audioFrameData f).length = f.samples * f.channels * 2 := by
  have h := length_flatMap_const int16le 2 (fun _ => rfl) (audioSamplesList f)
  simpa [audioFrameData, audioSamplesList_length f] using h

/-- entry `i * channels + c` of the sample list is the converted sample of
channel `c` at sample index `i`. -/
theorem audioSamplesList_getElem (f : AVAudioFrame) (i c : Nat)
    (hi : i < f.samples) (hc : c < f.channels) :
    (audioSamplesList f)[i * f.channels + c]? =
      some (convertSample (f.sample c i)) := by
  have hrange : (List.range f.samples)[i]? = some i := by
    simp [List.getElem?_range, hi]
  have h := getElem?_flatMap_const
    (fun i => (List.range f.channels).map (fun c => convertSample (f.sample c i)))
    f.channels (fun i => by simp) (List.range f.samples) i c hc i hrange
  simpa [audioSamplesList, List.getElem?_map, List.getElem?_range, hc] using h

/-- the two bytes of the converted sample of channel `c` at sample index `i`
sit at offsets `(i * channels + c) * 2` and `(i * channels + c) * 2 + 1`. -/
theorem audioFrameData_getElem (f : AVAudioFrame) (i c : Nat)
    (hi : i < f.samples) (hc : c < f.channels) :
    (audioFrameData f)[(i * f.channels + c) * 2]? =
      some ((convertSample (f.sample c i) % 65536).toNat % 256) ∧
    (audioFrameData f)[(i * f.channels + c) * 2 + 1]? =
      some ((convertSample (f.sample c i) % 65536).toNat / 256) := by
  have h0 := getElem?_flatMap_const int16le 2 (fun _ => rfl)
    (audioSamplesList f) (i * f.channels + c) 0 (by omega) _
    (audioSamplesList_getElem f i c hi hc)
  have h1 := getElem?_flatMap_const int16le 2 (fun _ => rfl)
    (audioSamplesList f) (i * f.channels + c) 1 (by omega) _
    (audioSamplesList_getElem f i c hi hc)
  constructor
  · simpa [audioFrameData, int16le] using h0
  · simpa [audioFrameData, int16le] using h1

/-- the modelled cast truncates toward zero also on negative values: -0.5
truncates to 0 (where floor would give -1), matching the C-style `astype`
conversion. -/
theorem ratTrunc_neg_half : ratTrunc (-(1 / 2 : Rat)) = 0 := by
  have hnum : (-(1 / 2 : Rat)).num = -1 := by norm_num
  have hden : (-(1 / 2 : Rat)).den = 2 := by norm_num
  simp only [ratTrunc, hnum, hden]
  decide

/-- a small negative source sample whose scaled value -0.5 is non-integral
stores 0, as `(frame * 32768).astype(np.int16)` does. -/
theorem convertSample_small_neg : convertSample (-(1 / 65536 : Rat)) = 0 := by
  have h : (-(1 / 65536 : Rat)) * 32768 = -(1 / 2) := by norm_num
  simp only [convertSample, h, ratTrunc_neg_half]
  decide

/-- from position `p ≤ length` with the stop flag clear, the n-th produced
frame of a stream loop is the conversion of source unit `(p + n) mod length`. -/
theorem streamNth_mod {α β : Type} (conv : α → β) (src : List α)
    (hne : src ≠ []) :
    ∀ (n p : Nat), p ≤ src.length →
      streamNth conv src ⟨false, p⟩ n =
        (src[(p + n) % src.length]?).map conv := by
  have hlen : 0 < src.length := List.length_pos.mpr hne
  intro n
  induction n with
  | zero =>
    intro p hp
    rcases Nat.lt_or_ge p src.length with hlt | hge
    · obtain ⟨u, hu⟩ : ∃ u, src[p]? = some u := by
        rw [List.getElem?_eq_getElem hlt]; exact ⟨_, rfl⟩
      simp [streamNth, streamStep, hu, Nat.mod_eq_of_lt hlt]
    · have hpe : p = src.length := Nat.le_antisymm hp hge
      obtain ⟨u0, hu0⟩ : ∃ u, src[0]? = some u := by
        rw [List.getElem?_eq_getElem hlen]; exact ⟨_, rfl⟩
      have hnone : src[p]? = none := by
        rw [hpe]; exact List.getElem?_eq_none (Nat.le_refl _)
      simp [streamNth, streamStep, hnone, hu0, hpe, Nat.mod_self]
  | succ n ih =>
    intro p hp
    rcases Nat.lt_or_ge p src.length with hlt | hge
    · obtain ⟨u, hu⟩ : ∃ u, src[p]? = some u := by
        rw [List.getElem?_eq_getElem hlt]; exact ⟨_, rfl⟩
      have harith : p + (n + 1) = p + 1 + n := by omega
      simp only [streamNth, streamStep, hu, if_neg (by simp : ¬(LoopSt.mk false p).stopped = true)]
      rw [harith]
      exact ih (p + 1) hlt
    · have hpe : p = src.length := Nat.le_antisymm hp hge
      obtain ⟨u0, hu0⟩ : ∃ u, src[0]? = some u := by
        rw [List.getElem?_eq_getElem hlen]; exact ⟨_, rfl⟩
      have hnone : src[p]? = none := by
        rw [hpe]; exact List.getElem?_eq_none (Nat.le_refl _)
      have hm : (p + (n + 1)) % src.length = (1 + n) % src.length := by
        rw [hpe, Nat.add_mod_left, Nat.add_comm 1 n]
      simp only [streamNth, streamStep, hnone, hu0, if_neg (by simp : ¬(LoopSt.mk false p).stopped = true)]
      rw [hm]
      exact ih 1 hlen

/-- a generator micro-step never changes the stop flag or the closed flag. -/
theorem genMicro_flags (len : Nat) (s : SysSt) :
    (genMicro len s).1.stopped = s.stopped ∧
      (genMicro len s).1.closed = s.closed := by
  rcases s with ⟨st, cl, pc⟩
  cases pc with
  | whileCheck => cases st <;> cases cl <;> exact ⟨rfl, rfl⟩
  | pull p =>
    cases cl
    · rcases Nat.lt_or_ge p len with hp | hp
      · simp [genMicro, hp]
      · simp [genMicro, Nat.not_lt.mpr hp]
    · exact ⟨rfl, rfl⟩
  | frameCheck p => cases st <;> exact ⟨rfl, rfl⟩
  | suspended p => exact ⟨rfl, rfl⟩
  | done => exact ⟨rfl, rfl⟩
  | raised => exact ⟨rfl, rfl⟩

/-- Flag-ordering invariant: along every schedule, a state whose containers
are closed has the stop flag set, because the only action that closes the
containers (`aclose`) sets the flag in the same atomic step, before the
close. -/
theorem visited_closed_stopped (len : Nat) :
    ∀ (sched : List Ch) (s0 : SysSt),
      (s0.closed = true → s0.stopped = true) →
      ∀ s ∈ visited len sched s0, s.closed = true → s.stopped = true := by
  intro sched
  induction sched with
  | nil =>
    intro s0 h0 s hs
    simp [visited] at hs
    subst hs
    exact h0
  | cons c cs ih =>
    intro s0 h0 s hs
    simp [visited] at hs
    rcases hs with rfl | hs
    · exact h0
    · refine ih (sysStep len c s0).1 ?_ s hs
      cases c with
      | gen =>
        intro hcl
        simp only [sysStep] at hcl ⊢
        have hp := genMicro_flags len s0
        rw [hp.1]
        exact h0 (hp.2 ▸ hcl)
      | close =>
        intro _
        rfl

/-- once the stop flag is set, the generator reaches `done` or `raised`
within 4 micro-steps (one resume of an in-flight unit) and yields no further
frame. -/
theorem stopped_terminates (len : Nat) (t : SysSt) (ht : t.stopped = true) :
    ((runGenN len 4 t).1.pc = .done ∨ (runGenN len 4 t).1.pc = .raised) ∧
    noYield (runGenN len 4 t).2 = true := by
  rcases t with ⟨st, cl, pc⟩
  cases st
  · simp at ht
  · cases pc with
    | whileCheck => cases cl <;> simp [runGenN, genMicro, noYield]
    | pull p =>
      cases cl
      · rcases Nat.lt_or_ge p len with hp | hp
        · simp [runGenN, genMicro, noYield, hp]
        · simp [runGenN, genMicro, noYield, Nat.not_lt.mpr hp]
      · simp [runGenN, genMicro, noYield]
    | frameCheck p => cases cl <;> simp [runGenN, genMicro, noYield]
    | suspended p =>
      cases cl
      · rcases Nat.lt_or_ge (p + 1) len with hp | hp
        · simp [runGenN, genMicro, noYield, hp]
        · simp [runGenN, genMicro, noYield, Nat.not_lt.mpr hp]
      · simp [runGenN, genMicro, noYield]
    | done => simp [runGenN, genMicro, noYield]
    | raised => simp [runGenN, genMicro, noYield]

/-- C1 (code bug): for a decoded 1×1 video frame with RGB pixel (10,20,30),
the VideoFrame produced by stream_video has buffer length width×height×4 as
claimed, but its every-4th (alpha) byte is 1, not 255: `frame_rgba` is
created by `np.ones((h, w, 4), dtype=np.uint8)` and only its first three
channels are overwritten, so the alpha channel keeps the `np.ones` value 1. -/
theorem stream_video_alpha_bug :
    (stream_video_frame testVideoFrame).data = [10, 20, 30, 1] ∧
    (stream_video_frame testVideoFrame).data.length =
      (stream_video_frame testVideoFrame).width *
        (stream_video_frame testVideoFrame).height * 4 ∧
    (stream_video_frame testVideoFrame).data[3]? = some 1 ∧
    (stream_video_frame testVideoFrame).data[3]? ≠ some 255 := by
  decide

/-- C2 fails as stated: for a decoded audio frame holding the single
full-scale sample 1.0, the value stored by `(frame * 32768).astype(np.int16)`
is the wrapped -32768 (little-endian bytes [0, 128]), not the saturated 32767
the claim requires. -/
theorem stream_audio_saturation_cex :
    convertSample 1 = -32768 ∧
    specSaturateSample 1 = 32767 ∧
    (stream_audio_frame testInfo fullScaleAudioFrame).data = [0, 128] ∧
    convertSample 1 ≠ specSaturateSample 1 := by
  have hnum : ((1 : Rat) * 32768).num = 32768 := by norm_num
  have hden : ((1 : Rat) * 32768).den = 1 := by norm_num
  have htr : ratTrunc ((1 : Rat) * 32768) = 32768 := by
    simp only [ratTrunc, hnum, hden]
    decide
  have hcs : convertSample 1 = -32768 := by
    simp only [convertSample, htr]
    decide
  have hsat : specSaturateSample 1 = 32767 := by
    simp only [specSaturateSample, htr]
    decide
  refine ⟨hcs, hsat, ?_, by rw [hcs, hsat]; decide⟩
  have hsl : audioSamplesList fullScaleAudioFrame = [convertSample 1] := by
    simp [audioSamplesList, fullScaleAudioFrame, List.range_succ]
  show (audioSamplesList fullScaleAudioFrame).flatMap int16le = [0, 128]
  rw [hsl, hcs]
  decide

/-- C2 (amended): for every decoded audio frame, the AudioFrame produced by
stream_audio has a buffer of length samples_per_channel×num_channels×2 bytes,
and each stored sample value equals the source sample multiplied by 32768,
truncated toward zero, then wrapped modulo 2^16 into the signed 16-bit range
(overflow wraps around, so an input sample of 1.0 maps to -32768, not to
32767). -/
theorem stream_audio_amended (info : MediaInfo) (f : AVAudioFrame)
    (i c : Nat) (hi : i < f.samples) (hc : c < f.channels) :
    (stream_audio_frame info f).data.length =
      (stream_audio_frame info f).samples_per_channel *
        (stream_audio_frame info f).num_channels * 2 ∧
    (stream_audio_frame info f).data[(i * f.channels + c) * 2]? =
      some ((int16Wrap (ratTrunc (f.sample c i * 32768)) % 65536).toNat % 256) ∧
    (stream_audio_frame info f).data[(i * f.channels + c) * 2 + 1]? =
      some ((int16Wrap (ratTrunc (f.sample c i * 32768)) % 65536).toNat / 256) := by
  exact ⟨audioFrameData_length f, (audioFrameData_getElem f i c hi hc).1,
    (audioFrameData_getElem f i c hi hc).2⟩

/-- witness for the amended C2 theorem at a concrete two-sample mono frame. -/
theorem stream_audio_amended_witness :
    (0 < testAudioFrame.samples ∧ 0 < testAudioFrame.channels) ∧
    ((stream_audio_frame testInfo testAudioFrame).data.length =
      (stream_audio_frame testInfo testAudioFrame).samples_per_channel *
        (stream_audio_frame testInfo testAudioFrame).num_channels * 2 ∧
     (stream_audio_frame testInfo testAudioFrame).data[(0 * testAudioFrame.channels + 0) * 2]? =
      some ((int16Wrap (ratTrunc (testAudioFrame.sample 0 0 * 32768)) % 65536).toNat % 256) ∧
     (stream_audio_frame testInfo testAudioFrame).data[(0 * testAudioFrame.channels + 0) * 2 + 1]? =
      some ((int16Wrap (ratTrunc (testAudioFrame.sample 0 0 * 32768)) % 65536).toNat / 256)) :=
  ⟨⟨by decide, by decide⟩,
    stream_audio_amended testInfo testAudioFrame 0 0 (by decide) (by decide)⟩

/-- C3 fails as stated: with a 2-unit source, run the generator to its first
yield, run `aclose` while it is suspended there, then let the consumer pull
once more.  The resumed `for` loop calls `next()` on the decode iterator of
the now-closed container before the `if self._stopped` check runs, so a
decode-context access occurs after the close action (and the generator
terminates with an exception rather than cleanly). -/
theorem aclose_context_access_cex :
    (runSched 2 cexSched sysInit).2 =
      [.ctxAccess, .ctxAccess, .yieldFrame 0, .closeCtx, .ctxAccess] ∧
    accessAfterClose (runSched 2 cexSched sysInit).2 = true ∧
    (runSched 2 cexSched sysInit).1.pc = .raised := by
  decide

/-- C3 (amended): after `aclose` both stream loops terminate within one
in-flight unit (at most 4 micro-steps, yielding no further frame), and the
stop flag is set no later than the containers are closed (every reachable
state with closed containers has the flag set); but a loop suspended at a
yield performs one final decode-context access when resumed, so the "no
further access to a decode context" part of the claim does not hold. -/
theorem aclose_amended (len : Nat) (sched : List Ch) (s t : SysSt)
    (hs : s ∈ visited len sched sysInit) (hsc : s.closed = true)
    (ht : t.stopped = true) :
    s.stopped = true ∧
    ((runGenN len 4 t).1.pc = .done ∨ (runGenN len 4 t).1.pc = .raised) ∧
    noYield (runGenN len 4 t).2 = true :=
  ⟨visited_closed_stopped len sched sysInit
      (fun h => by simp [sysInit] at h) s hs hsc,
    (stopped_terminates len t ht).1, (stopped_terminates len t ht).2⟩

/-- witness for the amended C3 theorem: the post-close state of the
counterexample schedule. -/
theorem aclose_amended_witness :
    (cexPostState ∈ visited 2 cexSched sysInit ∧
     cexPostState.closed = true ∧ cexPostState.stopped = true) ∧
    (cexPostState.stopped = true ∧
     ((runGenN 2 4 cexPostState).1.pc = .done ∨
      (runGenN 2 4 cexPostState).1.pc = .raised) ∧
     noYield (runGenN 2 4 cexPostState).2 = true) :=
  ⟨⟨by decide, by decide, by decide⟩,
    aclose_amended 2 cexSched cexPostState cexPostState
      (by decide) (by decide) (by decide)⟩

/-- C4 fails as stated: when `streamer.aclose()` raises, the error
propagates out of the `finally` block and `av_sync.aclose()` never runs —
the synchronizer-close step of shutdown is skipped. -/
theorem shutdown_skip_cex :
    ShutAct.syncClose ∉ (runFinally ⟨true, true, false⟩).1 ∧
    (runFinally ⟨true, true, false⟩).1 = [.streamerClose] ∧
    (runFinally ⟨true, true, false⟩).2 = some .avError := by
  decide

/-- C4 (amended): the synchronizer's close is performed exactly when the
streamer's close completed without raising (and `av_sync` was bound); an
error raised while closing the streamer's decode contexts propagates and the
synchronizer-close step is skipped. -/
theorem shutdown_amended (b sf sc : Bool) :
    ShutAct.syncClose ∈ (runFinally ⟨b, sf, sc⟩).1 ↔ (sf = false ∧ b = true) := by
  cases b <;> cases sf <;> cases sc <;> decide

/-- C5: for every stream (video and audio have the same loop structure), the
n-th frame produced from the initial state with the stop flag never set is
the conversion of source unit `n mod (number of units)`: after the last
decodable unit, the very next produced unit is decoded from the source's
time zero again, and this holds for arbitrarily many loop iterations. -/
theorem stream_loops_from_zero {α β : Type} (conv : α → β) (src : List α)
    (hne : src ≠ []) (n : Nat) :
    streamNth conv src ⟨false, 0⟩ n = (src[n % src.length]?).map conv := by
  have h := streamNth_mod conv src hne n 0 (Nat.zero_le _)
  simpa using h

/-- witness for C5: on a 2-unit source, frame number 2 is unit 0 again. -/
theorem stream_loops_from_zero_witness :
    ([10, 20] : List Nat) ≠ [] ∧
    streamNth (fun x => x + 1) [10, 20] ⟨false, 0⟩ 2 =
      ((([10, 20] : List Nat))[2 % ([10, 20] : List Nat).length]?).map
        (fun x => x + 1) :=
  ⟨by decide, stream_loops_from_zero (fun x => x + 1) [10, 20] (by decide) 2⟩

/-- C6: when unit number `oks.length` of a pass raises a decode error, the
stream yields exactly the conversions of the units before it and the error
propagates to the caller of the sequence; the corrupted unit is not skipped
and no later unit is decoded or yielded. -/
theorem decode_error_propagates {α β E : Type} (conv : α → β)
    (oks : List α) (e : E) (rest : List (Except E α)) :
    drainStream conv (oks.map Except.ok ++ Except.error e :: rest) =
      (oks.map conv, some e) := by
  induction oks with
  | nil => simp [drainStream]
  | cons u t ih => simp [drainStream, ih]

/-- C7: a source lacking a usable video stream or a usable audio stream
makes construction fail with the IndexError raised by `streams.video[0]` /
`streams.audio[0]`; no streamer object, partial or otherwise, is returned. -/
theorem missing_stream_construction_fails (c : AVContainer)
    (h : c.videoStreams = [] ∨ c.audioStreams = []) :
    mkMediaFileStreamer c = .error .indexError ∧
    (mkMediaFileStreamer c).isOk = false := by
  have hmain : mkMediaFileStreamer c = .error .indexError := by
    rcases h with h | h
    · unfold mkMediaFileStreamer
      rw [h]
      rfl
    · unfold mkMediaFileStreamer
      cases hv : c.videoStreams[0]? with
      | none => rfl
      | some vs =>
        rw [h]
        rfl
  exact ⟨hmain, by rw [hmain]; rfl⟩

/-- witness for C7: a container with no video stream. -/
theorem missing_stream_construction_fails_witness :
    (noVideoContainer.videoStreams = [] ∨
      noVideoContainer.audioStreams = []) ∧
    (mkMediaFileStreamer noVideoContainer = .error .indexError ∧
     (mkMediaFileStreamer noVideoContainer).isOk = false) :=
  ⟨Or.inl rfl,
    missing_stream_construction_fails noVideoContainer (Or.inl rfl)⟩

/-- C8: within one stream's push loop, the frames handed to `av_sync.push`
are exactly the frames the stream yielded, in the same order — no
reordering, duplication or loss. -/
theorem push_loop_order {β : Type} (frames : List β) :
    pushedFrames (pushLoopEvents frames) = frames := by
  induction frames with
  | nil => rfl
  | cons f rest ih =>
    simp only [pushLoopEvents, pushedFrames, List.filterMap_cons] at ih ⊢
    simp [ih]

/-- C9: every AudioFrame emitted by stream_audio carries the sample_rate
cached in MediaInfo at open time from the container's declared audio stream;
the decoded unit's own `rate` attribute is never read (the theorem holds for
every decoded frame, whatever its `rate`), so the emitted sample_rate is the
same across all frames of a session, while num_channels and
samples_per_channel come from the decoded unit's array shape. -/
theorem audio_sample_rate_cached (c : AVContainer) (st : MediaFileStreamer)
    (ainfo : AudioStreamInfo) (hok : mkMediaFileStreamer c = .ok st)
    (ha : c.audioStreams[0]? = some ainfo) (f g : AVAudioFrame) :
    st.info.audio_sample_rate = ainfo.sample_rate ∧
    (stream_audio_frame st.info f).sample_rate = st.info.audio_sample_rate ∧
    (stream_audio_frame st.info f).num_channels = f.channels ∧
    (stream_audio_frame st.info f).samples_per_channel = f.samples ∧
    (stream_audio_frame st.info f).sample_rate =
      (stream_audio_frame st.info g).sample_rate := by
  refine ⟨?_, rfl, rfl, rfl, rfl⟩
  unfold mkMediaFileStreamer at hok
  rcases hv : c.videoStreams[0]? with _ | vs <;> rw [hv] at hok
  · simp at hok
  · rw [ha] at hok
    simp only [Except.ok.injEq] at hok
    subst hok
    rfl

/-- witness for C9 at a concrete container and two concrete frames. -/
theorem audio_sample_rate_cached_witness :
    (mkMediaFileStreamer testContainer = .ok testStreamer ∧
     testContainer.audioStreams[0]? = some testAudioStreamInfo) ∧
    (testStreamer.info.audio_sample_rate = testAudioStreamInfo.sample_rate ∧
     (stream_audio_frame testStreamer.info testAudioFrame).sample_rate =
       testStreamer.info.audio_sample_rate ∧
     (stream_audio_frame testStreamer.info testAudioFrame).num_channels =
       testAudioFrame.channels ∧
     (stream_audio_frame testStreamer.info testAudioFrame).samples_per_channel =
       testAudioFrame.samples ∧
     (stream_audio_frame testStreamer.info testAudioFrame).sample_rate =
       (stream_audio_frame testStreamer.info fullScaleAudioFrame).sample_rate) :=
  ⟨⟨rfl, rfl⟩,
    audio_sample_rate_cached testContainer testStreamer testAudioStreamInfo
      rfl rfl testAudioFrame fullScaleAudioFrame⟩

/-- C10: if `AVSynchronizer(...)` raises before `av_sync` is bound, the
`finally` block closes the streamer and then itself fails with a NameError
when it evaluates the unbound name `av_sync`; the synchronizer-close step of
shutdown is unreachable on that path. -/
theorem cleanup_nameError_unbound (sc : Bool) :
    (runFinally ⟨false, false, sc⟩).1 = [.streamerClose] ∧
    (runFinally ⟨false, false, sc⟩).2 = some .nameError ∧
    ShutAct.syncClose ∉ (runFinally ⟨false, false, sc⟩).1 := by
  cases sc <;> decide

end VideoPlay
